import Mathlib

/-!
  Verification of the clipboard-sync client
  (src/macos_client_bidirectional.py).

  The file shallowly embeds the sync core: the `receive`, `send` and
  `heartbeat` task bodies nested in `clipboard_sync`, and the outer
  reconnect/backoff loop of `clipboard_sync` itself.  Loop bodies become
  step functions over explicit state; the outer reconnect loop becomes a
  fold over a list of per-iteration outcomes.  External effects
  (clipboard reads and writes, websocket sends, notifications) are
  recorded as data in the step results, and the success of fallible
  effects (set_clipboard, ws.send, get_clipboard, ping) is supplied as an
  oracle argument, so each step function is a pure, executable
  translation of the corresponding Python code path.

  Floating-point note: the backoff delay `min(5 * 1.5 ** min(n-1, 5), 60)`
  (line 202) only ever multiplies small dyadic rationals (5, powers of
  1.5 up to exponent 5, 60), all exactly representable in IEEE double
  precision with exact products, so modelling it over `ℚ` is exact.
-/

namespace ClipboardSync

/-- Connection states of the client (class ConnectionState, lines 36-39). -/
inductive ConnectionState
  | disconnected
  | connecting
  | connected
deriving DecidableEq, Repr

/-- Parsed JSON object of one inbound frame, holding the two keys the
`receive` body reads (lines 132-134).  `type?` models `data.get("type")`
(`none` when the key is absent); `text?` models the `"text"` key, for
which `data.get("text", "")` supplies `""` when absent.  Non-string JSON
values for these keys are outside the model; the code only ever compares
`type` against the string "clipboard", so a non-string `type` behaves
like a missing key, and the claims under verification all concern string
texts. -/
structure InData where
  type? : Option String
  text? : Option String
deriving DecidableEq, Repr

/-- One inbound websocket frame after `json.loads`: `none` models a
`json.JSONDecodeError` (line 139), which is logged and skipped. -/
abbrev InMessage := Option InData

/-- Observable outcome of handling one inbound frame in `receive`
(lines 130-142): the value of `last_clipboard` afterwards, and the list
of `set_clipboard` invocations (their text argument) made during the
iteration, in order. -/
structure RecvResult where
  last : String
  writes : List String
deriving DecidableEq, Repr

/-- One iteration of the `async for` body of `receive` (lines 130-142).
`writeOk` gives the Boolean result of `set_clipboard` (line 136).  A
clipboard-type message whose text is truthy (nonempty) and differs from
`last_clipboard` triggers `set_clipboard(text)`; only when that returns
True is `last_clipboard` updated (line 137).  Any other message, and any
decode failure, is skipped. -/
def recvStep (msg : InMessage) (writeOk : String → Bool) (last : String) : RecvResult :=
  match msg with
  | none => ⟨last, []⟩
  | some d =>
    if d.type? = some "clipboard" then
      let text := d.text?.getD ""
      if text ≠ "" ∧ text ≠ last then
        if writeOk text then ⟨text, [text]⟩ else ⟨last, [text]⟩
      else ⟨last, []⟩
    else ⟨last, []⟩

/-- Application envelope sent by the `send` task (lines 154-158):
`json.dumps({"type": "clipboard", "text": current, "source": "macos"})`. -/
structure Envelope where
  type : String
  text : String
  source : String
deriving DecidableEq, Repr

/-- Mutable state of the `send` task: `last_clipboard` (shared with
`receive`) and its local `consecutive_errors` counter (line 146). -/
structure SendState where
  last : String
  consecutiveErrors : Nat
deriving DecidableEq, Repr

/-- Observable outcome of one iteration of the `send` loop body
(lines 147-168): the state afterwards, the `ws.send` invocations made
(as envelopes), whether the iteration ends the task (breaks the loop or
lets an exception escape), and whether the 2-second recovery pause of
line 165 ran.  Every iteration ends with `await asyncio.sleep(CHECK_INTERVAL)`
(line 168). -/
structure SendResult where
  state : SendState
  sends : List Envelope
  exits : Bool
  recoveryPause : Bool
deriving DecidableEq, Repr

/-- One iteration of the `while True` body of `send` (lines 147-168).
`current` is the result of `get_clipboard()` (line 149), `none` when it
failed and returned None; `sendOk` tells whether `await ws.send(...)`
(line 154) succeeds or raises.  When the read yields a truthy (nonempty)
text that differs from `last_clipboard`, `last_clipboard` is updated
BEFORE the send (line 153), so the update persists even when the send
then raises.  The whole body sits in `try ... except Exception` (line
166) which logs and falls through to the sleep, so no iteration ends the
task: a failed send leaves the state identical to a successful one, and
`sendOk` is kept as an argument precisely to state that fact. -/
def sendStep (current : Option String) (sendOk : Bool) (st : SendState) : SendResult :=
  match current with
  | some cur =>
    if cur ≠ "" ∧ cur ≠ st.last then
      ⟨⟨cur, 0⟩, [⟨"clipboard", cur, "macos"⟩], false, false⟩
    else
      ⟨⟨st.last, 0⟩, [], false, false⟩
  | none =>
    if st.consecutiveErrors + 1 ≥ 5 then
      ⟨⟨st.last, 0⟩, [], false, true⟩
    else
      ⟨⟨st.last, st.consecutiveErrors + 1⟩, [], false, false⟩

/-- Runs the `send` loop through a finite list of polls, each poll giving
the `get_clipboard` result and the `ws.send` success flag; returns
whether some iteration ended the task, and the final state. -/
def senderRun : List (Option String × Bool) → SendState → Bool × SendState
  | [], st => (false, st)
  | p :: rest, st =>
    let r := sendStep p.1 p.2 st
    if r.exits then (true, r.state) else senderRun rest r.state

/-- Outcome of one `ws.ping()` liveness probe as observed by `heartbeat`
(lines 173-175): a pong within the 10-second wait, an
`asyncio.TimeoutError` from `asyncio.wait_for`, or any other error. -/
inductive PingOutcome
  | pong
  | timeout
  | error
deriving DecidableEq, Repr

/-- Observable outcome of one iteration of the `heartbeat` loop
(lines 172-185): whether the iteration ends the task (`break`), the
`set_state` call it makes if any, and whether it called `await ws.close()`. -/
structure HbResult where
  exits : Bool
  stateSet : Option ConnectionState
  closed : Bool
deriving DecidableEq, Repr

/-- One iteration of the `while True` body of `heartbeat` (lines 172-185):
a pong sleeps 30 seconds and loops; a timeout logs, sets state
Disconnected, closes the websocket and breaks; any other ping error
logs, sets state Disconnected and breaks (without closing). -/
def heartbeatStep (p : PingOutcome) : HbResult :=
  match p with
  | .pong => ⟨false, none, false⟩
  | .timeout => ⟨true, some .disconnected, true⟩
  | .error => ⟨true, some .disconnected, false⟩

/-- Completion of a task as awaited by `asyncio.gather` (line 188):
whether the coroutine ran to completion (returned), and whether it
raised an exception instead. -/
structure TaskOutcome where
  completes : Bool
  raises : Bool
deriving DecidableEq, Repr

/-- Termination condition of `await asyncio.gather(receive(), send(),
heartbeat())` (line 188) with the default `return_exceptions=False`
semantics: the await returns as soon as some child raises an exception,
or when all three have completed; otherwise it keeps waiting.  The outer
`except` handler (line 193), which drives the reconnect sequence, runs
only after this await terminates (with an exception), and the loop
continues past the `async with` only after it terminates at all. -/
def gatherTerminates (r s h : TaskOutcome) : Bool :=
  r.raises || s.raises || h.raises || (r.completes && s.completes && h.completes)

/-- Session termination after a heartbeat timeout, with the Sender
otherwise healthy.  On timeout, `heartbeat` sets state Disconnected,
calls `await ws.close()` (a local clean close, code 1000) and breaks, so
its task completes without raising.  Under a clean close the websockets
message iterator of `receive` (line 130) ends normally
(`ConnectionClosedOK` stops the `async for` rather than raising), so the
receiver also completes without raising.  The `send` task completes only
if some iteration of its body exits, which `senderRun` decides over the
given polls.  This composes those outcomes under the `gatherTerminates`
semantics: the reconnect sequence is reached only if this is true. -/
def sessionEndsAfterHeartbeatTimeout (polls : List (Option String × Bool)) (st : SendState) : Bool :=
  gatherTerminates ⟨true, false⟩ ⟨(senderRun polls st).1, false⟩
    ⟨(heartbeatStep .timeout).exits, false⟩

/-- Backoff delay in seconds before reconnect attempt `n` (the delay
computed after the `n`-th consecutive failure), from line 202:
`min(RECONNECT_DELAY * (1.5 ** min(reconnect_count - 1, 5)), 60)` with
`RECONNECT_DELAY = 5` (line 31).  Only evaluated with `n ≥ 1`, since the
counter is incremented (line 195) before the delay is computed. -/
def backoffDelay (n : Nat) : ℚ :=
  min (5 * (3 / 2 : ℚ) ^ min (n - 1) 5) 60

/-- State of the outer reconnect loop of `clipboard_sync`: the connection
state (module-level `current_state`) and `reconnect_count` (line 99). -/
structure LoopState where
  state : ConnectionState
  reconnectCount : Nat
deriving DecidableEq, Repr

/-- Notification text of line 126 (sent on every successful connection). -/
def connectedNote : String := "已连接到服务器"

/-- Notification text of line 207 (sent when `reconnect_count == 1`). -/
def reconnectingNote : String := "连接断开，正在重连..."

/-- Notification text of line 199 (sent when the attempt limit is
exhausted, just before the loop breaks). -/
def stoppedNote : String := "连接失败，已停止重连"

/-- Observable outcome of the `except Exception` failure handler of the
reconnect loop (lines 193-209): the loop state afterwards, whether the
loop breaks permanently (`terminal`), the notifications sent, and the
backoff delay slept (none when terminal). -/
structure FailResult where
  st : LoopState
  terminal : Bool
  notes : List String
  delay : Option ℚ
deriving DecidableEq, Repr

/-- The failure handler (lines 193-209): set state Disconnected,
increment `reconnect_count`; if a positive `MAX_RECONNECT_ATTEMPTS` is
configured and the count now exceeds it, notify and break; otherwise
compute the backoff delay, notify if and only if this is the first
failure of the streak (`reconnect_count == 1`, line 206), and sleep. -/
def onFailure (maxAttempts : Nat) (st : LoopState) : FailResult :=
  let n := st.reconnectCount + 1
  if maxAttempts > 0 ∧ n > maxAttempts then
    ⟨⟨.disconnected, n⟩, true, [stoppedNote], none⟩
  else
    ⟨⟨.disconnected, n⟩, false,
      if n = 1 then [reconnectingNote] else [], some (backoffDelay n)⟩

/-- The success prefix of a loop iteration (lines 121-126): once
`websockets.connect` succeeds, set state Connected, reset
`reconnect_count` to 0 (the two assignments are adjacent, lines 121-122,
with no intervening read of the counter), and send the connected
notification. -/
def onSuccess (st : LoopState) : LoopState × List String :=
  (⟨.connected, 0⟩, [connectedNote])

/-- Outcome of one iteration of the outer `while True` loop: either the
connection succeeded (the iteration reached line 121; the session then
runs until some exception lands the NEXT iteration outcome in `failure`),
or the iteration ended in the `except Exception` handler (connect
failure, or session failure after a success in an earlier iteration).
`asyncio.CancelledError` (line 190) ends the loop from outside and is
modelled by simply truncating the outcome list. -/
inductive AttemptResult
  | success
  | failure
deriving DecidableEq, Repr

/-- Accumulated state of the reconnect loop across iterations: the loop
state, whether the loop has broken permanently, and all notifications
sent so far. -/
structure RunState where
  loopSt : LoopState
  stopped : Bool
  notes : List String
deriving DecidableEq, Repr

/-- One iteration of the outer loop (lines 108-209).  Each live
iteration first sets state Connecting (line 110); the model records the
state at the end of the iteration.  After the loop has broken (`stopped`),
nothing further happens. -/
def runStep (maxAttempts : Nat) (rs : RunState) (a : AttemptResult) : RunState :=
  if rs.stopped then rs
  else
    match a with
    | .success => ⟨(onSuccess rs.loopSt).1, false, rs.notes ++ (onSuccess rs.loopSt).2⟩
    | .failure =>
      let fr := onFailure maxAttempts rs.loopSt
      ⟨fr.st, fr.terminal, rs.notes ++ fr.notes⟩

/-- Runs the reconnect loop over a finite list of iteration outcomes. -/
def runLoop (maxAttempts : Nat) (as : List AttemptResult) (rs : RunState) : RunState :=
  as.foldl (runStep maxAttempts) rs

/-- Initial run state of `clipboard_sync`: state Disconnected (line 41),
`reconnect_count = 0` (line 99), no notifications sent. -/
def initRun : RunState := ⟨⟨.disconnected, 0⟩, false, []⟩

/-! ## Helper lemmas -/

/-- No iteration of the `send` loop body ends the task: every path of
lines 147-168 falls through to the sleep of line 168, the `except
Exception` of line 166 absorbing any send error. -/
lemma sendStep_exits_false (c : Option String) (ok : Bool) (st : SendState) :
    (sendStep c ok st).exits = false := by
  cases c <;> simp only [sendStep] <;> split <;> rfl

/-- The `send` task never completes on its own, over any finite poll
sequence. -/
lemma senderRun_no_exit (polls : List (Option String × Bool)) (st : SendState) :
    (senderRun polls st).1 = false := by
  induction polls generalizing st with
  | nil => rfl
  | cons p rest ih =>
    simp only [senderRun, sendStep_exits_false, if_false, Bool.false_eq_true]
    exact ih _

/-- Once the reconnect loop has broken, later outcomes change nothing. -/
lemma runLoop_of_stopped (m : Nat) (as : List AttemptResult) (rs : RunState)
    (h : rs.stopped = true) : runLoop m as rs = rs := by
  induction as with
  | nil => rfl
  | cons a rest ih => simpa [runLoop, runStep, h] using ih

/-- With `MAX_RECONNECT_ATTEMPTS = 0` the terminal branch (line 197) is
unreachable, so the loop never breaks. -/
lemma runLoop_zero_not_stopped (as : List AttemptResult) (rs : RunState)
    (h : rs.stopped = false) : (runLoop 0 as rs).stopped = false := by
  induction as generalizing rs with
  | nil => exact h
  | cons a rest ih =>
    cases a <;>
      simpa [runLoop, runStep, h, onFailure] using ih _ rfl

/-- During a failure streak, iterations after the first (counter already
at least 1) emit no notification: the guard of line 206 is false. -/
lemma runLoop_failures_no_notes (k : Nat) :
    ∀ (st : LoopState) (ns : List String), 1 ≤ st.reconnectCount →
      (runLoop 0 (List.replicate k .failure) ⟨st, false, ns⟩).notes = ns := by
  induction k with
  | zero => intro st ns _; rfl
  | succ k ih =>
    intro st ns h
    have hne : ¬ st.reconnectCount + 1 = 1 := by omega
    simpa [List.replicate_succ, runLoop, runStep, onFailure, hne]
      using ih ⟨.disconnected, st.reconnectCount + 1⟩ ns (Nat.le_add_left 1 _)

/-- The reconnect-loop invariant: whenever the state is Connected the
counter is 0.  Preserved by every iteration. -/
lemma runStep_inv (m : Nat) (rs : RunState) (a : AttemptResult)
    (h : rs.loopSt.state = ConnectionState.connected → rs.loopSt.reconnectCount = 0) :
    (runStep m rs a).loopSt.state = ConnectionState.connected →
      (runStep m rs a).loopSt.reconnectCount = 0 := by
  by_cases hs : rs.stopped = true
  · simpa [runStep, hs] using h
  · cases a
    · simp [runStep, hs, onSuccess]
    · simp [runStep, hs, onFailure]
      split <;> simp

/-- The invariant holds after any run of the loop. -/
lemma runLoop_inv (m : Nat) (as : List AttemptResult) (rs : RunState)
    (h : rs.loopSt.state = ConnectionState.connected → rs.loopSt.reconnectCount = 0) :
    (runLoop m as rs).loopSt.state = ConnectionState.connected →
      (runLoop m as rs).loopSt.reconnectCount = 0 := by
  induction as generalizing rs with
  | nil => exact h
  | cons a rest ih => exact ih _ (runStep_inv m rs a h)

/-! ## Claim theorems -/

/-- C1.  Echo prevention: when the snapshot equals `T` (as it does right
after the Receiver wrote `T` to the clipboard), receiving `T` again
triggers no clipboard write, and a Sender poll that reads `T` from the
clipboard sends nothing and leaves the snapshot at `T` — both paths
compare against `last_clipboard` before acting. -/
theorem echo_prevention (T : String) (w : String → Bool) (cE : Nat) (sOk : Bool) :
    (recvStep (some ⟨some "clipboard", some T⟩) w T).writes = [] ∧
    (sendStep (some T) sOk ⟨T, cE⟩).sends = [] ∧
    (sendStep (some T) sOk ⟨T, cE⟩).state.last = T := by
  refine ⟨?_, ?_, ?_⟩ <;> simp [recvStep, sendStep]

/-- C2 (counterexample).  The claim says the delay before attempt 7 (and
every later attempt) is capped at 60 seconds; in fact the exponent is
clamped at 5, so the formula of line 202 yields
`min(5 * 1.5^5, 60) = 37.96875`, and the 60-second cap is never reached. -/
theorem backoff_cap_counterexample :
    backoffDelay 7 ≠ 60 ∧ backoffDelay 7 = 1215 / 32 := by
  constructor <;> norm_num [backoffDelay, min_def]

/-- C2 (amended).  The delays before reconnect attempts 1..6 are 5, 7.5,
11.25, 16.875, 25.3125, 37.96875, and every later delay stays at
37.96875 = 5 * 1.5^5: the exponent is clamped at 5 and the 60-second
cap is never binding.  The delay slept by the failure handler after the
n-th consecutive failure is exactly `backoffDelay n`. -/
theorem backoff_sequence (k : Nat) (st : LoopState) :
    backoffDelay 1 = 5 ∧ backoffDelay 2 = 15 / 2 ∧ backoffDelay 3 = 45 / 4 ∧
    backoffDelay 4 = 135 / 8 ∧ backoffDelay 5 = 405 / 16 ∧
    backoffDelay 6 = 1215 / 32 ∧ backoffDelay (6 + k) = 1215 / 32 ∧
    (onFailure 0 st).delay = some (backoffDelay (st.reconnectCount + 1)) := by
  have hmin : min (6 + k - 1) 5 = 5 := by omega
  refine ⟨?_, ?_, ?_, ?_, ?_, ?_, ?_, ?_⟩
  · norm_num [backoffDelay, min_def]
  · norm_num [backoffDelay, min_def]
  · norm_num [backoffDelay, min_def]
  · norm_num [backoffDelay, min_def]
  · norm_num [backoffDelay, min_def]
  · norm_num [backoffDelay, min_def]
  · rw [backoffDelay, hmin]; norm_num [min_def]
  · simp [onFailure]

/-- C3 (counterexample).  The empty string "" differs from the snapshot
"x", yet a clipboard-type message carrying "" triggers no clipboard
write and leaves the snapshot unchanged: the truthiness test of line 135
skips empty text, contradicting the claim for T = "". -/
theorem receive_empty_counterexample :
    ("" : String) ≠ "x" ∧
    recvStep (some ⟨some "clipboard", some ""⟩) (fun _ => true) "x" = ⟨"x", []⟩ := by
  constructor
  · decide
  · rfl

/-- C3 (amended).  For every NONEMPTY text `T` delivered in a
clipboard-type message and differing from the snapshot, `set_clipboard`
is invoked exactly once with `T`, and the snapshot becomes `T` exactly
when that write succeeds (unchanged when it fails); a text equal to the
snapshot triggers no write.  (Empty or absent text also triggers no
write; see the empty-text theorem.) -/
theorem receive_write_semantics (T last : String) (w : String → Bool)
    (hT : T ≠ "") (hne : T ≠ last) :
    recvStep (some ⟨some "clipboard", some T⟩) w last =
      ⟨if w T then T else last, [T]⟩ ∧
    recvStep (some ⟨some "clipboard", some last⟩) w last = ⟨last, []⟩ := by
  constructor
  · simp only [recvStep, Option.getD_some, if_pos rfl, hT, hne, ne_eq,
      not_false_iff, and_self, if_true]
    split <;> rfl
  · simp [recvStep]

/-- C3 (witness). -/
theorem receive_write_semantics_witness :
    recvStep (some ⟨some "clipboard", some "x"⟩) (fun _ => true) "y" =
      ⟨if (fun _ => true) "x" then "x" else "y", ["x"]⟩ ∧
    recvStep (some ⟨some "clipboard", some "y"⟩) (fun _ => true) "y" = ⟨"y", []⟩ :=
  receive_write_semantics "x" "y" (fun _ => true) (by decide) (by decide)

/-- C4 (counterexample).  A poll that reads the empty string while the
snapshot is "x" sends nothing and leaves the snapshot at "x" (only the
error counter is reset): the truthiness test of line 152 skips empty
text, contradicting the claim for T = "". -/
theorem sender_empty_counterexample :
    ("" : String) ≠ "x" ∧
    sendStep (some "") true ⟨"x", 2⟩ = ⟨⟨"x", 0⟩, [], false, false⟩ := by
  constructor
  · decide
  · rfl

/-- C4 (amended).  For every NONEMPTY text `T` read from the clipboard
that differs from the snapshot, exactly one clipboard-type envelope
carrying `T` (tagged with source "macos") is passed to `ws.send`, and
the snapshot is updated to `T` within the same iteration — before the
send itself (line 153), hence before the next poll cycle in any case. -/
theorem sender_send_semantics (T : String) (st : SendState) (sOk : Bool)
    (hT : T ≠ "") (hne : T ≠ st.last) :
    sendStep (some T) sOk st =
      ⟨⟨T, 0⟩, [⟨"clipboard", T, "macos"⟩], false, false⟩ := by
  simp [sendStep, hT, hne]

/-- C4 (witness). -/
theorem sender_send_semantics_witness :
    sendStep (some "x") true ⟨"", 3⟩ =
      ⟨⟨"x", 0⟩, [⟨"clipboard", "x", "macos"⟩], false, false⟩ :=
  sender_send_semantics "x" ⟨"", 3⟩ true (by decide) (by decide)

/-- C5 (counterexample).  A poll where the clipboard read yields the new
text "new" but `ws.send` raises (`sendOk = false`): the send is
attempted, the exception is caught by the `except Exception` of line 166,
and the iteration does NOT end the Sender task — contradicting the claim
that a send failure ends it. -/
theorem send_failure_not_fatal :
    (sendStep (some "new") false ⟨"old", 0⟩).exits = false ∧
    (sendStep (some "new") false ⟨"old", 0⟩).sends =
      [⟨"clipboard", "new", "macos"⟩] := by
  constructor <;> rfl

/-- C5 (amended).  The Sender task runs indefinitely, polling on the
configured interval, until it is cancelled: no finite sequence of polls
— whatever the clipboard reads yield and whether or not each `ws.send`
succeeds — ends the task, because every exception in the loop body is
caught and logged (line 166).  In particular a send failure does not end
the Sender task and is not observed as session failure through it. -/
theorem sender_runs_until_cancelled (polls : List (Option String × Bool)) (st : SendState) :
    (senderRun polls st).1 = false :=
  senderRun_no_exit polls st

/-- C6.  A heartbeat timeout does end the Heartbeat task and does force
the state to Disconnected (and closes the websocket), as the claim says
— but it does NOT initiate the reconnect sequence: the heartbeat
coroutine completes without raising, the receiver ends normally under
the locally-initiated clean close, and the Sender never completes (its
exceptions are all caught), so `asyncio.gather` (line 188) never
terminates and the reconnect handler of lines 193-209 is never reached. -/
theorem heartbeat_timeout_no_reconnect (polls : List (Option String × Bool)) (st : SendState) :
    (heartbeatStep .timeout).exits = true ∧
    (heartbeatStep .timeout).stateSet = some ConnectionState.disconnected ∧
    (heartbeatStep .timeout).closed = true ∧
    sessionEndsAfterHeartbeatTimeout polls st = false := by
  refine ⟨rfl, rfl, rfl, ?_⟩
  simp [sessionEndsAfterHeartbeatTimeout, gatherTerminates, senderRun_no_exit,
    heartbeatStep]

/-- C7.  With `MAX_RECONNECT_ATTEMPTS = 3`, the 4th consecutive connect
failure breaks the loop permanently and sends the terminal notification
(after the single "reconnecting" notification of the streak's first
failure), and any further outcomes change nothing; with the limit 0 the
loop never becomes terminal, over any outcome sequence. -/
theorem reconnect_limit_behavior (extra as : List AttemptResult) :
    (runLoop 3 (List.replicate 4 .failure) initRun).stopped = true ∧
    (runLoop 3 (List.replicate 4 .failure) initRun).notes =
      [reconnectingNote, stoppedNote] ∧
    runLoop 3 (List.replicate 4 .failure ++ extra) initRun =
      runLoop 3 (List.replicate 4 .failure) initRun ∧
    (runLoop 0 as initRun).stopped = false := by
  refine ⟨rfl, rfl, ?_, runLoop_zero_not_stopped as initRun rfl⟩
  rw [runLoop, List.foldl_append]
  exact runLoop_of_stopped 3 extra _ rfl

/-- C8.  A failure streak entered with counter 0 — at a fresh start, or
right after any successful connection — emits the "disconnected,
reconnecting" notification exactly once, on the streak's first failure:
a streak of `k + 1` consecutive failures appends exactly that one note. -/
theorem reconnect_notice_once_per_streak (k : Nat) (st : LoopState) (ns : List String) :
    (runLoop 0 (List.replicate (k + 1) .failure)
        ⟨(onSuccess st).1, false, ns⟩).notes = ns ++ [reconnectingNote] ∧
    (runLoop 0 (List.replicate (k + 1) .failure) initRun).notes = [reconnectingNote] := by
  constructor
  · simpa [List.replicate_succ, runLoop, runStep, onSuccess, onFailure]
      using runLoop_failures_no_notes k ⟨.disconnected, 1⟩ (ns ++ [reconnectingNote])
        le_rfl
  · simpa [List.replicate_succ, runLoop, runStep, initRun, onFailure]
      using runLoop_failures_no_notes k ⟨.disconnected, 1⟩ [reconnectingNote] le_rfl

/-- C9.  The reconnect counter is reset to 0 on every successful
connection (lines 121-122), and consequently the loop invariant holds:
whenever the state machine is in Connected, the counter is 0 — preserved
across any run of the reconnect loop from any state satisfying it. -/
theorem counter_reset_on_success (m : Nat) (st : LoopState)
    (as : List AttemptResult) (rs : RunState)
    (h : rs.loopSt.state = ConnectionState.connected → rs.loopSt.reconnectCount = 0) :
    (onSuccess st).1.reconnectCount = 0 ∧
    (onSuccess st).1.state = ConnectionState.connected ∧
    ((runLoop m as rs).loopSt.state = ConnectionState.connected →
      (runLoop m as rs).loopSt.reconnectCount = 0) :=
  ⟨rfl, rfl, runLoop_inv m as rs h⟩

/-- C9 (witness). -/
theorem counter_reset_on_success_witness :
    (onSuccess ⟨.connecting, 7⟩).1.reconnectCount = 0 ∧
    (onSuccess ⟨.connecting, 7⟩).1.state = ConnectionState.connected ∧
    ((runLoop 5 [.failure, .success] initRun).loopSt.state = ConnectionState.connected →
      (runLoop 5 [.failure, .success] initRun).loopSt.reconnectCount = 0) :=
  counter_reset_on_success 5 ⟨.connecting, 7⟩ [.failure, .success] initRun (by decide)

/-- C10.  Empty text is never synchronized: a clipboard-type message
whose text is "" or absent triggers no write and leaves the snapshot
unchanged (whatever the message's type, in fact), and a poll that reads
"" sends nothing and leaves the snapshot unchanged — even when "" differs
from the snapshot — and does not end the task. -/
theorem empty_text_never_synced (ty : Option String) (w : String → Bool)
    (last : String) (st : SendState) (sOk : Bool) :
    recvStep (some ⟨ty, some ""⟩) w last = ⟨last, []⟩ ∧
    recvStep (some ⟨ty, none⟩) w last = ⟨last, []⟩ ∧
    (sendStep (some "") sOk st).sends = [] ∧
    (sendStep (some "") sOk st).state.last = st.last ∧
    (sendStep (some "") sOk st).exits = false := by
  refine ⟨?_, ?_, ?_, ?_, ?_⟩
  · simp only [recvStep]; split <;> simp
  · simp only [recvStep]; split <;> simp
  · simp [sendStep]
  · simp [sendStep]
  · simp [sendStep]

end ClipboardSync
